import Mathlib

/-!
Verification of the options order-placement core of the arbitrage-bot
backend (`src/backend/src/index.ts`), as a shallow embedding.

The embedding covers:
* the process-wide trading-mode state and its setter
  (`app.post("/api/trading-mode")`, lines 17 and 48–68);
* the options order-placement handler
  (`app.post("/api/options/orders")`, lines 1188–1558): field validation,
  best-effort position lookup, smart-side resolution, wire-order
  construction, the SDK attempt, the direct-API fallback, and the
  message-classified retry branches.

Modelling conventions:
* Remote behaviour (position query, SDK `createOrder`, the two possible
  `fetch` calls) is an oracle, the `Broker` structure; the handler is a
  pure function of the request body and that oracle.
* Alongside the HTTP response the embedding returns a `Trace` recording
  which remote calls were made and, in order, every order body submitted
  to the broker (SDK attempt, direct-API call, retry), so that claims
  about call counts are statable.
* JS numbers are rationals; `parseInt` on a decimal numeral truncates
  toward zero, and `Number.toFixed(2)` is exact decimal rounding, half
  away from zero, with the produced two-decimal string represented by its
  integer number of cents.  Binary floating-point edge cases are outside
  the model.  `toLowerCase`/`toUpperCase` are per-character ASCII case
  mapping.
* JS truthiness on the request fields: an absent field, the empty string
  and the number 0 are falsy.
* The broker's error payload is modelled by its `message` field (the only
  field the classification branches inspect); `errorData.error`, the raw
  text of unparseable bodies, and transport-level exceptions from `fetch`
  itself are not modelled.
-/

/-- A position row as returned by the broker's position query; `qty` is the
rational value of the numeric string the code reads with `parseFloat`. -/
structure Position where
  symbol : String
  qty : ℚ
  side : String
deriving Repr, DecidableEq

/-- The projection of the broker's order object that the handler echoes
back to the caller (id, symbol, side, qty, type, status, limit_price,
filled_qty, created_at), all kept opaque as strings. -/
structure OrderRecord where
  id : String
  symbol : String
  side : String
  qty : String
  type : String
  status : String
  limit_price : String
  filled_qty : String
  created_at : String
deriving Repr, DecidableEq

/-- The wire order body (`orderData` in the source): upper-cased symbol,
`parseInt` quantity, primitive side, order type, `time_in_force = "day"`,
`limit_price` present only for limit orders, and the `order_class` field
that the alternative-margin branch would add. -/
structure WireOrder where
  symbol : String
  qty : ℤ
  side : String
  type : String
  time_in_force : String
  limit_price : Option ℤ
  order_class : Option String
deriving Repr, DecidableEq

/-- The request body of `POST /api/options/orders`, after the destructuring
`const { symbol, side, quantity, price, orderType = "limit" } = req.body`:
each of the four required fields may be absent, and `orderType` already
carries its `"limit"` default. -/
structure OrderReq where
  symbol : Option String
  side : Option String
  quantity : Option ℚ
  price : Option ℚ
  orderType : String
deriving Repr, DecidableEq

/-- Outcome of one `fetch` to the broker's `/v2/orders` endpoint:
a 2xx response with a parseable order body, a 2xx response whose body is
not JSON, or a non-2xx response carrying the parsed `errorData.message`
(`none` when the payload has no message field). -/
inductive ApiResp where
  | ok (order : OrderRecord)
  | okUnparseable (raw : String)
  | fail (status : ℕ) (message : Option String)
deriving Repr, DecidableEq

/-- The oracle for the remote broker during one placement call:
the position query, the SDK `createOrder` attempt (`.error` = thrown, with
the rejection message), the direct-API `fetch`, and the second `fetch`
(wash-trade retry or alternative-margin attempt) should one be made. -/
structure Broker where
  positions : Except String (List Position)
  sdk : Except String OrderRecord
  direct : ApiResp
  second : ApiResp
deriving Repr

/-- The `{qty, side}` projection of a position echoed in `position_info`
and `debug_info.existing_position`. -/
structure PosInfo where
  qty : ℚ
  side : String
deriving Repr, DecidableEq

/-- A success response body. `position_info = none` means the field is
absent from the JSON object altogether; `some none` means it is present
with value `null`. -/
structure SuccessBody where
  order : OrderRecord
  message : String
  method : String
  smart_side : String
  original_side : String
  position_info : Option (Option PosInfo)
deriving Repr, DecidableEq

/-- The `debug_info` object attached to fatal-rejection responses. -/
structure DebugInfo where
  order_data : WireOrder
  original_side : String
  smart_side : String
  existing_position : Option PosInfo
deriving Repr, DecidableEq

/-- An error response body: HTTP status, `error` message, the broker's
`message` payload under `details`, optional `debug_info`, and the
`suggestions` list (empty when the field is absent). -/
structure ErrorBody where
  status : ℕ
  error : String
  details : Option String
  debug_info : Option DebugInfo
  suggestions : List String
deriving Repr, DecidableEq

/-- The handler's HTTP response. -/
inductive HandlerResp where
  | success (body : SuccessBody)
  | failure (body : ErrorBody)
deriving Repr, DecidableEq

/-- Which remote calls one placement call performed: the account read, the
position query, and every order body submitted to the broker, in order. -/
structure Trace where
  accountChecked : Bool
  positionLooked : Bool
  submissions : List WireOrder
deriving Repr, DecidableEq

/-- JS truthiness of an optional string field (absent and `""` are falsy). -/
def truthyS : Option String → Bool
  | none => false
  | some s => !(s == "")

/-- JS truthiness of an optional numeric field (absent and `0` are falsy). -/
def truthyQ : Option ℚ → Bool
  | none => false
  | some q => !(q == 0)

/-- `!symbol || !side || !quantity || !price` negated: the request passes
the required-field validation at line 1193. -/
def validReq (req : OrderReq) : Bool :=
  truthyS req.symbol && truthyS req.side && truthyQ req.quantity && truthyQ req.price

/-- `parseInt` applied to a decimal numeral: truncation toward zero, which
on `num/den` is T-division of the numerator by the denominator. -/
def jsParseIntOfRat (q : ℚ) : ℤ :=
  Int.tdiv q.num q.den

/-- `parseFloat(price).toFixed(2)`: exact decimal rounding to two places,
half away from zero, with the two-decimal string `"x.yz"` represented by
its value in cents.  For `q = num/den ≥ 0` the rounding is
`⌊100q + 1/2⌋ = ⌊(200 num + den) / (2 den)⌋`, and the negative case
mirrors it. -/
def jsToFixed2Cents (q : ℚ) : ℤ :=
  if 0 ≤ q.num then Int.fdiv (200 * q.num + q.den) (2 * q.den)
  else -(Int.fdiv (200 * -q.num + q.den) (2 * q.den))

/-- `String.prototype.toLowerCase` as per-character case mapping. -/
def jsLower (s : String) : String :=
  ⟨s.data.map Char.toLower⟩

/-- `String.prototype.toUpperCase` as per-character case mapping. -/
def jsUpper (s : String) : String :=
  ⟨s.data.map Char.toUpper⟩

/-- Substring test on the underlying character lists: does `hay` contain
`pat` (JS `String.prototype.includes`)? -/
def charsHas (pat : List Char) : List Char → Bool
  | [] => pat.isEmpty
  | c :: cs => pat.isPrefixOf (c :: cs) || charsHas pat cs

/-- JS `hay.includes(pat)`. -/
def includesStr (hay pat : String) : Bool :=
  charsHas pat.toList hay.toList

/-- The retryable-rejection pattern of the wash-trade branch (line 1348). -/
def washPat : String := "potential wash trade detected"

/-- The pattern of the short-sell-conflict branches (lines 1346 and 1398). -/
def shortSellPat : String := "cannot open a short sell while a long buy order is open"

/-- The static remediation `suggestions` list of the fatal-rejection
response (lines 1467–1472). -/
def staticSuggestions : List String :=
  ["Use a margin account to allow simultaneous long/short positions",
   "Close existing positions before placing opposing orders",
   "Use 'sell_to_close' instead of 'sell_to_open' if you have long positions",
   "Use 'buy_to_close' instead of 'buy_to_open' if you have short positions"]

/-- `position_info` / `existing_position` projection of the looked-up
position. -/
def posInfoOf (pos : Option Position) : Option PosInfo :=
  pos.map fun p => ⟨p.qty, p.side⟩

/-- The smart-side resolution (lines 1225–1254), given the position found
for the symbol (`none` when the query succeeded but found nothing): the
if/else-if chain on `side.toLowerCase()` and `parseFloat(qty)`, falling
through to the original side when no branch matches. -/
def smartSideOf (side : String) (pos : Option Position) : String :=
  match pos with
  | some p =>
    if jsLower side = "sell" ∧ p.qty > 0 then "sell_to_close"
    else if jsLower side = "buy" ∧ p.qty < 0 then "buy_to_close"
    else if jsLower side = "sell" ∧ p.qty ≤ 0 then "sell_to_open"
    else if jsLower side = "buy" ∧ p.qty ≥ 0 then "buy_to_open"
    else side
  | none =>
    if jsLower side = "buy" then "buy_to_open"
    else if jsLower side = "sell" then "sell_to_open"
    else side

/-- The position-lookup stage (lines 1216–1258): on success, `find` the
position whose symbol equals the upper-cased request symbol and resolve
the smart side; when `getPositions` throws, the catch leaves
`existingPosition = null` and `smartSide` at the original side. -/
def resolveStage (side symbol : String) (positions : Except String (List Position)) :
    Option Position × String :=
  match positions with
  | .error _ => (none, side)
  | .ok ps =>
    let pos := ps.find? fun p => p.symbol == jsUpper symbol
    (pos, smartSideOf side pos)

/-- Construction of `orderData` (lines 1263–1274): upper-cased symbol,
`parseInt` quantity, primitive wire side (`"buy"` exactly when the smart
side is `buy_to_open`/`buy_to_close`, `"sell"` otherwise), the order type,
`time_in_force = "day"`, and a rounded `limit_price` for limit orders. -/
def buildOrderData (symbol smartSide : String) (quantity price : ℚ)
    (orderType : String) : WireOrder :=
  { symbol := jsUpper symbol
    qty := jsParseIntOfRat quantity
    side := if smartSide = "buy_to_open" ∨ smartSide = "buy_to_close" then "buy" else "sell"
    type := orderType
    time_in_force := "day"
    limit_price := if orderType = "limit" then some (jsToFixed2Cents price) else none
    order_class := none }

/-- The direct-API stage (lines 1317–1512), entered after the SDK attempt
threw: issue `orderData` to `/v2/orders` and, on a non-ok response,
classify `errorData.message`.  The first branch (line 1346, short-sell
conflict) only rewrites the error message and never retries; the
wash-trade branch (line 1348) resubmits `retryOrderData` — a copy of
`orderData` with `time_in_force` re-set to its existing `"day"` — and on
an ok retry answers with `method = "retry_after_wash_trade"` (and no
`position_info` field); the third branch (line 1398) repeats the
short-sell condition verbatim, so it is unreachable, and would submit
`orderData` plus `order_class = "simple"`.  Returns the response together
with the list of order bodies this stage submitted. -/
def directStage (od : WireOrder) (smartSide origSide : String) (pos : Option Position)
    (direct second : ApiResp) : HandlerResp × List WireOrder :=
  match direct with
  | .ok order =>
    (.success ⟨order, "Options order placed successfully via direct API", "direct_api",
       smartSide, origSide, some (posInfoOf pos)⟩, [od])
  | .okUnparseable raw =>
    (.failure ⟨500, "Invalid response from Alpaca API", some raw, none, []⟩, [od])
  | .fail st msg =>
    let m := msg.getD ""
    let mT : Bool := msg.isSome && !(m == "")
    let dbg : DebugInfo := ⟨od, origSide, smartSide, posInfoOf pos⟩
    if mT && includesStr m shortSellPat then
      (.failure ⟨st, "Broker restriction: " ++ m ++ ". This occurs because you have existing long positions and are trying to create a short position. Consider using a margin account or closing existing positions first.",
         msg, some dbg, staticSuggestions⟩, [od])
    else if mT && includesStr m washPat then
      let retryOd : WireOrder := { od with time_in_force := "day" }
      match second with
      | .ok retryOrder =>
        (.success ⟨retryOrder, "Options order placed successfully (retry after wash trade detection)",
           "retry_after_wash_trade", smartSide, origSide, none⟩, [od, retryOd])
      | _ =>
        (.failure ⟨st, "Wash trade detection triggered: " ++ m ++ ". For day trading, this should not apply. Trying alternative approach...",
           msg, some dbg, staticSuggestions⟩, [od, retryOd])
    else if mT && includesStr m shortSellPat then
      let altOd : WireOrder := { od with order_class := some "simple" }
      match second with
      | .ok altOrder =>
        (.success ⟨altOrder, "Options order placed successfully (alternative approach for margin)",
           "alternative_margin_approach", smartSide, origSide, none⟩, [od, altOd])
      | _ =>
        (.failure ⟨st, "Position restriction: " ++ m ++ ". For day trading with margin, this should not apply. Trying alternative approach...",
           msg, some dbg, staticSuggestions⟩, [od, altOd])
    else
      (.failure ⟨st, if mT then m else "Options order failed", msg, some dbg, staticSuggestions⟩,
       [od])

/-- The whole `POST /api/options/orders` handler (lines 1188–1558) as a
pure function of the request body and the broker oracle, returning the
HTTP response and the trace of remote calls.  Validation runs before any
remote call; then the account read (result ignored, errors swallowed),
the best-effort position lookup, `orderData` construction, the SDK
attempt, and on an SDK throw the direct-API stage. -/
def placeOptionsOrder (req : OrderReq) (b : Broker) : HandlerResp × Trace :=
  if validReq req then
    let symbol := req.symbol.getD ""
    let side := req.side.getD ""
    let quantity := req.quantity.getD 0
    let price := req.price.getD 0
    let rp := resolveStage side symbol b.positions
    let existingPosition := rp.1
    let smartSide := rp.2
    let od := buildOrderData symbol smartSide quantity price req.orderType
    match b.sdk with
    | .ok order =>
      (.success ⟨order, "Options order placed successfully via SDK", "alpaca_sdk",
         smartSide, side, some (posInfoOf existingPosition)⟩,
       ⟨true, true, [od]⟩)
    | .error _ =>
      let ds := directStage od smartSide side existingPosition b.direct b.second
      (ds.1, ⟨true, true, od :: ds.2⟩)
  else
    (.failure ⟨400, "Missing required fields: symbol, side, quantity, price", none, none, []⟩,
     ⟨false, false, []⟩)

/-- Is the response a success? -/
def HandlerResp.isSuccess : HandlerResp → Bool
  | .success _ => true
  | .failure _ => false

/-- The `method` tag of a success response. -/
def HandlerResp.methodTag : HandlerResp → Option String
  | .success sb => some sb.method
  | .failure _ => none

/-- The `smart_side` field of a success response. -/
def HandlerResp.smartSideTag : HandlerResp → Option String
  | .success sb => some sb.smart_side
  | .failure _ => none

/-- Whether a success response carries the `position_info` field at all. -/
def HandlerResp.hasPosInfoField : HandlerResp → Bool
  | .success sb => sb.position_info.isSome
  | .failure _ => false

/-- The HTTP status of a failure response. -/
def HandlerResp.failStatus : HandlerResp → Option ℕ
  | .success _ => none
  | .failure eb => some eb.status

/-- The trading-mode variable (line 17) starts as `"paper"`. -/
def initialTradingMode : String := "paper"

/-- The response of the trading-mode setter. -/
structure ModeResp where
  status : ℕ
  success : Bool
  mode : Option String
  error : Option String
deriving Repr, DecidableEq

/-- The `POST /api/trading-mode` handler (lines 48–68): when the request's
`mode` is neither `"paper"` nor `"live"` (including absent or non-string,
modelled as `none`), answer 400 and leave the stored mode unchanged;
otherwise store it and echo it.  Returns the response and the new stored
mode. -/
def setTradingMode (current : String) (mode : Option String) : ModeResp × String :=
  if mode ≠ some "paper" ∧ mode ≠ some "live" then
    (⟨400, false, none, some "Mode must be 'paper' or 'live'"⟩, current)
  else
    let m := mode.getD current
    (⟨200, true, some m, none⟩, m)

/-- The stored trading mode after a sequence of setter requests, starting
from the initial `"paper"`. -/
def runModeRequests (ms : List (Option String)) : String :=
  ms.foldl (fun c m => (setTradingMode c m).2) initialTradingMode

/-- The validation-error response of the order handler (lines 1194–1197). -/
def validationErrorBody : ErrorBody :=
  ⟨400, "Missing required fields: symbol, side, quantity, price", none, none, []⟩

/-- A well-formed limit buy request: one contract at a price of 2. -/
def req0 : OrderReq := ⟨some "MSTR250725P00150000", some "buy", some 1, some 2, "limit"⟩

/-- A request whose quantity field is the (truthy) number `-5`. -/
def reqNegQty : OrderReq := ⟨some "MSTR250725P00150000", some "buy", some (-5), some 2, "limit"⟩

/-- A request with the required `price` field absent. -/
def reqNoPrice : OrderReq := ⟨some "MSTR250725P00150000", some "buy", some 1, none, "limit"⟩

/-- An order record for the broker oracle to answer with. -/
def order0 : OrderRecord :=
  ⟨"oid-1", "MSTR250725P00150000", "buy", "1", "limit", "accepted", "2.00", "0", "t0"⟩

/-- Oracle: no positions, SDK accepts. -/
def brokerSdkOk : Broker := ⟨.ok [], .ok order0, .fail 500 none, .fail 500 none⟩

/-- Oracle: no positions, SDK throws, direct API rejects with a wash-trade
message, the retry is accepted. -/
def brokerWash : Broker := ⟨.ok [], .error "sdk rejected", .fail 403 (some washPat), .ok order0⟩

/-- Oracle: no positions, SDK throws, direct API rejects with the
short-sell-conflict message, and a further submission would be accepted. -/
def brokerShort : Broker := ⟨.ok [], .error "sdk rejected", .fail 403 (some shortSellPat), .ok order0⟩

/-- Oracle: no positions, SDK throws, direct API rejects with a message
containing both retryable patterns, a further submission would be
accepted. -/
def brokerBoth : Broker :=
  ⟨.ok [], .error "sdk rejected",
   .fail 403 (some (shortSellPat ++ " and " ++ washPat)), .ok order0⟩

/-- Oracle: no positions, SDK throws with a fatal (non-retryable) message
and the direct API rejects with the same fatal message. -/
def brokerFatal : Broker :=
  ⟨.ok [], .error "not authorized", .fail 403 (some "not authorized"), .fail 500 none⟩

/-- Oracle: the position query itself throws; the SDK accepts. -/
def brokerPosFail : Broker := ⟨.error "network down", .ok order0, .fail 500 none, .fail 500 none⟩

/-- The success body of the SDK path for `req0` against `brokerSdkOk`. -/
def sbSdk0 : SuccessBody :=
  ⟨order0, "Options order placed successfully via SDK", "alpaca_sdk", "buy_to_open",
   "buy", some none⟩

/-- The direct-API stage issues at most two order submissions (the direct
call and at most one retry). -/
theorem directStage_length_le_two (od : WireOrder) (smartSide origSide : String)
    (pos : Option Position) (direct second : ApiResp) :
    (directStage od smartSide origSide pos direct second).2.length ≤ 2 := by
  unfold directStage
  rcases direct with o | r | ⟨st, msg⟩
  · simp
  · simp
  · dsimp only
    split_ifs <;> rcases second with o2 | r2 | ⟨st2, m2⟩ <;> simp

/-- C1 (amended).  Every placement call submits an order to the broker at
most three times: the SDK attempt, the direct-API fallback, and at most
one retry; there is no unbounded retry loop. -/
theorem c1_at_most_three_submissions (req : OrderReq) (b : Broker) :
    (placeOptionsOrder req b).2.submissions.length ≤ 3 := by
  obtain ⟨pos, sdk, dir, sec⟩ := b
  unfold placeOptionsOrder
  split
  · rcases sdk with e | o
    · dsimp only
      exact Nat.succ_le_succ (directStage_length_le_two _ _ _ _ _ _)
    · simp
  · simp

/-- C1: counterexample to the claim as stated.  With the SDK attempt
rejected and the direct API rejecting with a wash-trade message, the call
makes three submissions, not at most two. -/
theorem c1_counterexample :
    ¬ ((placeOptionsOrder req0 brokerWash).2.submissions.length ≤ 2) := by decide

/-- C3 (code bug).  A direct-API rejection whose message is exactly the
short-sell-conflict pattern is NOT retried: the first classification
branch (line 1346) matches the same substring as the alternative-order
branch (line 1398) and only rewrites the error message, so the
`order_class = "simple"` resubmission is unreachable.  Here the oracle
would even accept a second submission, yet the call ends after two
submissions, with a failure, and no submitted body ever carries an
`order_class` marker. -/
theorem c3_short_sell_conflict_never_retried :
    (placeOptionsOrder req0 brokerShort).2.submissions.length = 2 ∧
    (placeOptionsOrder req0 brokerShort).1.isSuccess = false ∧
    ((placeOptionsOrder req0 brokerShort).2.submissions.all
      fun w => w.order_class == none) = true := by decide

/-- C6 (code bug).  When the remote position lookup throws, the catch at
line 1255 keeps `smartSide` at the original `"buy"`, and the wire-side
ternary at line 1266 then maps it to `"sell"`: the buy request is
transmitted with wire side `"sell"`, not resolved to `buy_to_open` with
wire side `"buy"` as the spec states. -/
theorem c6_degraded_lookup_buy_sent_as_sell :
    ((placeOptionsOrder req0 brokerPosFail).2.submissions.map fun w => w.side) = ["sell"] ∧
    (placeOptionsOrder req0 brokerPosFail).1.smartSideTag = some "buy" ∧
    (placeOptionsOrder req0 brokerPosFail).1.isSuccess = true := by decide

/-- C8.  A request missing any of symbol, side, quantity or price is
rejected with the 400 validation error before any remote call: no account
read, no position lookup, and no submission is performed. -/
theorem c8_validation_before_any_remote_call (req : OrderReq) (b : Broker)
    (h : req.symbol = none ∨ req.side = none ∨ req.quantity = none ∨ req.price = none) :
    (placeOptionsOrder req b).1 = .failure validationErrorBody ∧
    (placeOptionsOrder req b).2 = ⟨false, false, []⟩ := by
  have hv : validReq req = false := by
    rcases h with h | h | h | h <;>
      simp [validReq, truthyS, truthyQ, h]
  unfold placeOptionsOrder
  rw [hv]
  exact ⟨rfl, rfl⟩

/-- C8 witness: a concrete request lacking `price` is rejected with the
validation error and an empty remote-call trace. -/
theorem c8_witness :
    (placeOptionsOrder reqNoPrice brokerSdkOk).1 = .failure validationErrorBody ∧
    (placeOptionsOrder reqNoPrice brokerSdkOk).2 = ⟨false, false, []⟩ :=
  c8_validation_before_any_remote_call reqNoPrice brokerSdkOk (Or.inr (Or.inr (Or.inr rfl)))

/-- C2 (amended).  When the SDK attempt has thrown and the direct-API
submission is rejected with a message containing "potential wash trade
detected" — and not also containing the short-sell-conflict pattern,
which the code checks first and which suppresses the retry — exactly one
retry is performed with an order body identical to the first attempt's
(three identical submitted bodies in all), and when that retry succeeds
the result is a success response tagged `method: retry_after_wash_trade`.
The fixed 100 ms delay before the retry is a real-time property outside
this embedding. -/
theorem c2_wash_trade_retry (req : OrderReq) (b : Broker) (st : ℕ) (m e : String)
    (o : OrderRecord)
    (hval : validReq req = true)
    (hsdk : b.sdk = .error e)
    (hdir : b.direct = .fail st (some m))
    (hne : m ≠ "")
    (hwash : includesStr m washPat = true)
    (hnoshort : includesStr m shortSellPat = false)
    (hsecond : b.second = .ok o) :
    ∃ w : WireOrder,
      (placeOptionsOrder req b).2.submissions = [w, w, w] ∧
      (placeOptionsOrder req b).1 = .success
        ⟨o, "Options order placed successfully (retry after wash trade detection)",
         "retry_after_wash_trade",
         (resolveStage (req.side.getD "") (req.symbol.getD "") b.positions).2,
         req.side.getD "", none⟩ := by
  have hm : (m == "") = false := by
    simp [hne]
  refine ⟨buildOrderData (req.symbol.getD "")
    (resolveStage (req.side.getD "") (req.symbol.getD "") b.positions).2
    (req.quantity.getD 0) (req.price.getD 0) req.orderType, ?_, ?_⟩ <;>
    simp only [placeOptionsOrder, directStage, hval, hsdk, hdir, hsecond, hm, hwash,
      hnoshort, if_true, Option.getD_some, Option.isSome_some, Bool.true_and,
      Bool.and_false, Bool.and_true, Bool.not_false, if_false, Bool.false_eq_true]
  rfl

/-- C2: counterexample to the claim as stated.  A rejection message that
contains "potential wash trade detected" but also contains the
short-sell-conflict pattern takes the first classification branch, so no
retry is performed and the call fails after two submissions. -/
theorem c2_counterexample :
    (placeOptionsOrder req0 brokerBoth).2.submissions.length = 2 ∧
    (placeOptionsOrder req0 brokerBoth).1.isSuccess = false := by decide

/-- C2 witness: with the direct API rejecting with exactly the wash-trade
message and the retry accepted, the call submits three identical bodies
and answers `retry_after_wash_trade`. -/
theorem c2_witness :
    ∃ w : WireOrder,
      (placeOptionsOrder req0 brokerWash).2.submissions = [w, w, w] ∧
      (placeOptionsOrder req0 brokerWash).1 = .success
        ⟨order0, "Options order placed successfully (retry after wash trade detection)",
         "retry_after_wash_trade",
         (resolveStage (req0.side.getD "") (req0.symbol.getD "") brokerWash.positions).2,
         req0.side.getD "", none⟩ :=
  c2_wash_trade_retry req0 brokerWash 403 washPat "sdk rejected" order0 rfl rfl rfl
    (by decide) (by decide) (by decide) rfl

/-- C4 (amended).  A rejection of the first (SDK) submission always
triggers exactly one fallback submission via the direct API, regardless
of the rejection message; when the direct-API submission is rejected with
a message matching neither retryable pattern, no further submission is
made — the call ends at two submissions — and that rejection is surfaced
immediately with its status, its raw payload under `details`, and the
static suggestions list. -/
theorem c4_fatal_first_attempt_still_falls_back (req : OrderReq) (b : Broker) (st : ℕ)
    (msg : Option String) (e : String)
    (hval : validReq req = true)
    (hsdk : b.sdk = .error e)
    (hdir : b.direct = .fail st msg)
    (hfatal : ∀ m, msg = some m →
      includesStr m shortSellPat = false ∧ includesStr m washPat = false) :
    (placeOptionsOrder req b).2.submissions.length = 2 ∧
    ∃ eb, (placeOptionsOrder req b).1 = .failure eb ∧ eb.status = st ∧
      eb.details = msg ∧ eb.suggestions = staticSuggestions := by
  rcases msg with _ | m
  · simp only [placeOptionsOrder, directStage, hval, hsdk, hdir, if_true,
      Option.isSome_none, Bool.false_and, Bool.and_false, if_false, Bool.false_eq_true,
      List.length_cons, List.length_singleton]
    exact ⟨rfl, _, rfl, rfl, rfl, rfl⟩
  · obtain ⟨h1, h2⟩ := hfatal m rfl
    simp only [placeOptionsOrder, directStage, hval, hsdk, hdir, if_true,
      Option.getD_some, Option.isSome_some, Bool.true_and, h1, h2, Bool.and_false,
      if_false, Bool.false_eq_true, List.length_cons, List.length_singleton]
    exact ⟨rfl, _, rfl, rfl, rfl, rfl⟩

/-- C4: counterexample to the claim as stated.  With the SDK attempt
rejected with the fatal message "not authorized", a second submission (the
direct-API fallback) IS made: the claim that no second attempt follows a
fatal first rejection fails. -/
theorem c4_counterexample :
    ¬ ((placeOptionsOrder req0 brokerFatal).2.submissions.length ≤ 1) := by decide

/-- C4 witness: with both the SDK and the direct API rejecting with
"not authorized", the call ends with exactly two submissions and surfaces
the 403 rejection with its payload and the suggestions list. -/
theorem c4_witness :
    (placeOptionsOrder req0 brokerFatal).2.submissions.length = 2 ∧
    ∃ eb, (placeOptionsOrder req0 brokerFatal).1 = .failure eb ∧ eb.status = 403 ∧
      eb.details = some "not authorized" ∧ eb.suggestions = staticSuggestions :=
  c4_fatal_first_attempt_still_falls_back req0 brokerFatal 403 (some "not authorized")
    "not authorized" rfl rfl rfl
    (fun m hm => by injection hm with h; subst h; exact ⟨by decide, by decide⟩)

/-- C5.  The side resolver matches the decision table: an already-qualified
side passes through unchanged (with or without an existing position);
`sell` against a positive position yields `sell_to_close`; `sell` against
a non-positive or absent position yields `sell_to_open`; `buy` against a
negative position yields `buy_to_close`; `buy` otherwise (non-negative or
absent position) yields `buy_to_open`. -/
theorem c5_side_resolver_table (p : Position) :
    (∀ s, s ∈ (["buy_to_open", "buy_to_close", "sell_to_open", "sell_to_close"] : List String) →
      smartSideOf s (some p) = s ∧ smartSideOf s none = s) ∧
    (p.qty > 0 → smartSideOf "sell" (some p) = "sell_to_close") ∧
    (p.qty ≤ 0 → smartSideOf "sell" (some p) = "sell_to_open") ∧
    smartSideOf "sell" none = "sell_to_open" ∧
    (p.qty < 0 → smartSideOf "buy" (some p) = "buy_to_close") ∧
    (p.qty ≥ 0 → smartSideOf "buy" (some p) = "buy_to_open") ∧
    smartSideOf "buy" none = "buy_to_open" := by
  refine ⟨?_, ?_, ?_, ?_, ?_, ?_, ?_⟩
  · intro s hs
    fin_cases hs <;> refine ⟨?_, by decide⟩ <;>
      simp only [smartSideOf] <;>
      split_ifs with h1 h2 h3 h4 <;>
      first
        | rfl
        | exact absurd h1.1 (by decide)
        | exact absurd h2.1 (by decide)
        | exact absurd h3.1 (by decide)
        | exact absurd h4.1 (by decide)
  · intro h
    simp only [smartSideOf]
    rw [if_pos ⟨by decide, h⟩]
  · intro h
    simp only [smartSideOf]
    rw [if_neg fun hc => absurd hc.2 (not_lt.mpr h),
      if_neg fun hc => absurd hc.1 (by decide),
      if_pos ⟨by decide, h⟩]
  · decide
  · intro h
    simp only [smartSideOf]
    rw [if_neg fun hc => absurd hc.1 (by decide),
      if_pos ⟨by decide, h⟩]
  · intro h
    simp only [smartSideOf]
    rw [if_neg fun hc => absurd hc.1 (by decide),
      if_neg fun hc => absurd hc.2 (not_lt.mpr h),
      if_neg fun hc => absurd hc.1 (by decide),
      if_pos ⟨by decide, h⟩]
  · decide

/-- C5 witness: a long position turns `sell` into `sell_to_close`, a short
position turns `buy` into `buy_to_close`, and an already-qualified
`buy_to_close` passes through unchanged. -/
theorem c5_witness :
    smartSideOf "sell" (some ⟨"AAPL", 1, "long"⟩) = "sell_to_close" ∧
    smartSideOf "buy" (some ⟨"AAPL", -2, "short"⟩) = "buy_to_close" ∧
    smartSideOf "buy_to_close" (some ⟨"AAPL", 1, "long"⟩) = "buy_to_close" :=
  ⟨(c5_side_resolver_table ⟨"AAPL", 1, "long"⟩).2.1 (by decide),
   (c5_side_resolver_table ⟨"AAPL", -2, "short"⟩).2.2.2.2.1 (by decide),
   ((c5_side_resolver_table ⟨"AAPL", 1, "long"⟩).1 "buy_to_close" (by decide)).1⟩

/-- C7 (amended).  Every accepted outcome is returned in the success shape
`{order, smart_side, original_side, ...}`, and the `position_info` field
is present exactly on the SDK and direct-API success paths: the
retry-after-wash-trade success response omits it. -/
theorem c7_position_info_presence (req : OrderReq) (b : Broker) (sb : SuccessBody)
    (h : (placeOptionsOrder req b).1 = .success sb) :
    sb.position_info.isSome = (sb.method == "alpaca_sdk" || sb.method == "direct_api") := by
  obtain ⟨pos, sdk, dir, sec⟩ := b
  unfold placeOptionsOrder at h
  split at h
  · rcases sdk with e | o
    · dsimp only at h
      unfold directStage at h
      rcases dir with o | r | ⟨st, msg⟩
      · injection h with h; subst h; rfl
      · exact absurd h (by simp)
      · dsimp only at h
        split_ifs at h
        rcases sec with o2 | r2 | ⟨st2, m2⟩ <;>
          first
            | (injection h with h; subst h; rfl)
            | exact absurd h (by simp)
    · injection h with h; subst h; rfl
  · exact absurd h (by simp)

/-- C7: counterexample to the claim as stated.  The retry-after-wash-trade
success response is a success outcome with no `position_info` field. -/
theorem c7_counterexample :
    (placeOptionsOrder req0 brokerWash).1.isSuccess = true ∧
    (placeOptionsOrder req0 brokerWash).1.hasPosInfoField = false := by decide

/-- C7 witness: the SDK success path for a concrete call carries the
`position_info` field. -/
theorem c7_witness :
    sbSdk0.position_info.isSome = (sbSdk0.method == "alpaca_sdk" || sbSdk0.method == "direct_api") :=
  c7_position_info_presence req0 brokerSdkOk sbSdk0 (by decide)

/-- Every order body the direct-API stage submits carries the same
quantity and limit price as the prepared `orderData`: the retry copies it
(re-setting `time_in_force` to its existing value) and the alternative
branch only adds `order_class`. -/
theorem directStage_submission_bodies (od : WireOrder) (smartSide origSide : String)
    (pos : Option Position) (direct second : ApiResp) :
    ∀ w ∈ (directStage od smartSide origSide pos direct second).2,
      w.qty = od.qty ∧ w.limit_price = od.limit_price := by
  unfold directStage
  rcases direct with o | r | ⟨st, msg⟩
  · simp
  · simp
  · dsimp only
    split_ifs <;> rcases second with o2 | r2 | ⟨st2, m2⟩ <;> intro w hw <;>
      fin_cases hw <;> exact ⟨rfl, rfl⟩

/-- Every order body a placement call submits carries the `parseInt` of
the request's quantity and, for limit orders, the rounded request price
in cents. -/
theorem submissions_qty_price (req : OrderReq) (b : Broker) :
    ∀ w ∈ (placeOptionsOrder req b).2.submissions,
      w.qty = jsParseIntOfRat (req.quantity.getD 0) ∧
      w.limit_price = (if req.orderType = "limit"
        then some (jsToFixed2Cents (req.price.getD 0)) else none) := by
  obtain ⟨pos, sdk, dir, sec⟩ := b
  unfold placeOptionsOrder
  split
  · rcases sdk with e | o
    · dsimp only
      intro w hw
      rcases List.mem_cons.mp hw with rfl | hw2
      · exact ⟨rfl, rfl⟩
      · exact directStage_submission_bodies _ _ _ _ _ _ w hw2
    · intro w hw
      fin_cases hw
      exact ⟨rfl, rfl⟩
  · intro w hw
    exact absurd hw (List.not_mem_nil w)

/-- C9 (amended).  A validated request whose quantity is an integer of at
least 1 and whose price is at least 0.01 is submitted with a strictly
positive wire quantity and, when a limit price is present, a strictly
positive limit price.  (Validation alone does not enforce this: it only
requires the fields to be truthy, see the counterexample.) -/
theorem c9_validated_positive_submission (req : OrderReq) (b : Broker) (n : ℤ) (pr : ℚ)
    (_hval : validReq req = true)
    (hq : req.quantity = some (n : ℚ)) (hn : 1 ≤ n)
    (hp : req.price = some pr) (hpr : (1 : ℚ) ≤ 100 * pr) :
    ∀ w ∈ (placeOptionsOrder req b).2.submissions,
      0 < w.qty ∧ ∀ c, w.limit_price = some c → 0 < c := by
  have hqty : jsParseIntOfRat (req.quantity.getD 0) = n := by
    rw [hq, Option.getD_some]
    unfold jsParseIntOfRat
    rw [Rat.num_intCast, Rat.den_intCast, Nat.cast_one, Int.tdiv_one]
  have hpr0 : 0 < pr := by linarith
  have hnum : 0 < pr.num := Rat.num_pos.mpr hpr0
  have hden : (0:ℤ) < (pr.den : ℤ) := by exact_mod_cast pr.den_pos
  have hmulden : (pr.num : ℚ) = pr * pr.den := by
    have h0 : ((pr.den : ℚ)) ≠ 0 := Nat.cast_ne_zero.mpr pr.den_pos.ne'
    nth_rewrite 2 [← Rat.num_div_den pr]
    rw [div_mul_cancel₀ _ h0]
  have hd100 : (pr.den : ℤ) ≤ 100 * pr.num := by
    have h1 : ((pr.den : ℤ) : ℚ) ≤ ((100 * pr.num : ℤ) : ℚ) := by
      push_cast
      calc (pr.den : ℚ) = 1 * pr.den := (one_mul _).symm
        _ ≤ (100 * pr) * pr.den := by
            have : (0:ℚ) ≤ (pr.den : ℚ) := by positivity
            exact mul_le_mul_of_nonneg_right hpr this
        _ = 100 * (pr * pr.den) := by ring
        _ = 100 * pr.num := by rw [← hmulden]
    exact_mod_cast h1
  have hcents : 0 < jsToFixed2Cents pr := by
    unfold jsToFixed2Cents
    rw [if_pos (le_of_lt hnum)]
    rw [Int.fdiv_eq_ediv _ (by omega)]
    have h2d : (0:ℤ) < 2 * pr.den := by omega
    have h1le : 1 ≤ (200 * pr.num + pr.den) / (2 * pr.den) := by
      rw [Int.le_ediv_iff_mul_le h2d]
      omega
    omega
  intro w hw
  obtain ⟨hwq, hwp⟩ := submissions_qty_price req b w hw
  refine ⟨?_, ?_⟩
  · rw [hwq, hqty]; omega
  · intro c hc
    rw [hwp] at hc
    split_ifs at hc
    injection hc with hc
    subst hc
    rw [hp, Option.getD_some]
    exact hcents

/-- C9: counterexample to the claim as stated.  A request with quantity
`-5` is truthy, so it passes validation, and is submitted with wire
quantity `-5`, violating `quantity > 0`. -/
theorem c9_counterexample :
    validReq reqNegQty = true ∧
    ¬ (∀ w ∈ (placeOptionsOrder reqNegQty brokerSdkOk).2.submissions, 0 < w.qty) := by
  decide

/-- C9 witness: for a validated request with quantity 1 and price 2, the
one submitted body carries positive quantity 1 and positive limit price
200 cents. -/
theorem c9_witness :
    0 < (⟨"MSTR250725P00150000", 1, "buy", "limit", "day", some 200, none⟩ : WireOrder).qty ∧
    (0:ℤ) < 200 := by
  have h := c9_validated_positive_submission req0 brokerSdkOk 1 2 rfl (by norm_num [req0])
    le_rfl rfl (by norm_num)
    ⟨"MSTR250725P00150000", 1, "buy", "limit", "day", some 200, none⟩ (by decide)
  exact ⟨h.1, h.2 200 (by decide)⟩

/-- One trading-mode request leaves the stored mode unchanged or sets it
to `"paper"` or `"live"`. -/
theorem modeStep_cases (c : String) (m : Option String) :
    (setTradingMode c m).2 = c ∨ (setTradingMode c m).2 = "paper" ∨
      (setTradingMode c m).2 = "live" := by
  unfold setTradingMode
  split_ifs with h
  · exact Or.inl rfl
  · rcases not_and_or.mp h with h | h <;> rw [not_ne_iff] at h <;> subst h
    · exact Or.inr (Or.inl rfl)
    · exact Or.inr (Or.inr rfl)

/-- After any sequence of trading-mode requests the stored mode is
`"paper"` or `"live"`. -/
theorem runModeRequests_mem (ms : List (Option String)) :
    runModeRequests ms = "paper" ∨ runModeRequests ms = "live" := by
  unfold runModeRequests
  have key : ∀ (l : List (Option String)) (c : String), (c = "paper" ∨ c = "live") →
      (l.foldl (fun c m => (setTradingMode c m).2) c = "paper" ∨
       l.foldl (fun c m => (setTradingMode c m).2) c = "live") := by
    intro l
    induction l with
    | nil => intro c hc; exact hc
    | cons m tl ih =>
      intro c hc
      simp only [List.foldl_cons]
      apply ih
      rcases modeStep_cases c m with h | h | h
      · rw [h]; exact hc
      · exact Or.inl h
      · exact Or.inr h
  exact key ms initialTradingMode (Or.inl rfl)

/-- C10.  The trading mode starts as `"paper"`, is always one of
`"paper"`/`"live"` after any sequence of setter requests, and each setter
request either answers 400 and leaves the mode unchanged (exactly when the
requested value is neither `"paper"` nor `"live"`) or answers 200 and
stores the requested value. -/
theorem c10_trading_mode_invariant :
    initialTradingMode = "paper" ∧
    (∀ ms : List (Option String),
      runModeRequests ms = "paper" ∨ runModeRequests ms = "live") ∧
    (∀ (c : String) (m : Option String),
      ((setTradingMode c m).1.status = 400 ∧ (setTradingMode c m).2 = c ∧
        m ≠ some "paper" ∧ m ≠ some "live") ∨
      ((setTradingMode c m).1.status = 200 ∧ (m = some "paper" ∨ m = some "live") ∧
        some (setTradingMode c m).2 = m)) := by
  refine ⟨rfl, runModeRequests_mem, ?_⟩
  intro c m
  unfold setTradingMode
  split_ifs with h
  · exact Or.inl ⟨rfl, rfl, h.1, h.2⟩
  · rcases not_and_or.mp h with h | h <;> rw [not_ne_iff] at h <;> subst h
    · exact Or.inr ⟨rfl, Or.inl rfl, rfl⟩
    · exact Or.inr ⟨rfl, Or.inr rfl, rfl⟩
